import Mathlib

/-!
Shallow embedding of the asynchronous job-tracking backend in `app.py`
(Flask application: tool submission `process_tool`, the background worker
`process_files`, the static estimate table `get_processing_time`, and the
read-side endpoints `get_status` / `download_result`).

Modelling conventions:
* The global dict `processing_status` is a `Store`: an association list from
  job id to `JobRecord`, with first-occurrence keys kept unique exactly like
  a Python dict (assignment to an existing key replaces in place, a fresh
  key is appended).
* A Python job dict is a `JobRecord` whose optional keys (`output_files`,
  `error`, `end_time`) are `Option`s that start out `none` (absent key).
* Status values are the exact string literals the code writes:
  `"processing"`, `"completed"`, `"error"`.
* Wall-clock values (`datetime.now().isoformat()`, `uuid.uuid4()`) are
  environmental inputs and enter as explicit `String` parameters.
* The body of `simulate_tool_processing` and every other source of a Python
  exception inside the `try:` of `process_files` is environmental as well;
  its outcome enters as `Except String (List String)` — `.ok files` when the
  handler returns the output-file list, `.error msg` when it raises an
  exception whose `str(e)` is `msg`.  `process_files` itself is a total
  function `Store → ... → Store`: the `except` clause catches everything, so
  no exception escapes the worker.
-/

namespace AllTools

/-- One entry of the `processing_status` dict (`app.py` line 277): the keys
written at creation plus the optional keys added later by the worker. -/
structure JobRecord where
  status : String
  progress : Nat
  tool_id : String
  start_time : String
  estimated_time : Nat
  output_files : Option (List String) := none
  error : Option String := none
  end_time : Option String := none
  deriving DecidableEq, Repr

/-- The global `processing_status` dict, as an association list with unique
keys (insertion order preserved, as in a Python dict). -/
abbrev Store := List (String × JobRecord)

/-- Dict read: `processing_status[job_id]` when present. -/
def storeGet (st : Store) (id : String) : Option JobRecord :=
  (List.find? (fun p => p.1 = id) st).map (fun p => p.2)

/-- Dict assignment `processing_status[job_id] = rec`: replace the existing
entry in place, or append a fresh key. -/
def storeSet : Store → String → JobRecord → Store
  | [], id, r => [(id, r)]
  | (k, v) :: t, id, r =>
      if k = id then (k, r) :: t else (k, v) :: storeSet t id r

/-- In-place mutation of one entry (`processing_status[job_id].update(...)` or
`processing_status[job_id]['progress'] = p`).  The code never deletes entries,
so the missing-key `KeyError` path is unreachable; it is modelled as a no-op. -/
def storeUpdate (st : Store) (id : String) (f : JobRecord → JobRecord) : Store :=
  st.map (fun p => if p.1 = id then (p.1, f p.2) else p)

/-- The static lookup table of `get_processing_time` (`app.py` lines 35-80),
in source order.  `format_converter` appears twice (8 wins, Python dict
literal semantics: the later binding overwrites). -/
def processing_times : List (String × Nat) :=
  [("pdf_to_word", 15), ("pdf_to_excel", 20), ("word_to_pdf", 10), ("excel_to_pdf", 12),
   ("pdf_merger", 8), ("pdf_splitter", 10), ("pdf_editor", 25), ("pdf_compressor", 15),
   ("pdf_ocr", 30), ("pdf_form_filler", 20), ("pdf_to_image", 12), ("image_to_pdf", 8),
   ("pdf_watermark", 10), ("pdf_password", 5), ("pdf_metadata", 3), ("table_extractor", 25),
   ("pdf_summary", 45), ("pdf_annotation", 20), ("pdf_reorder", 8), ("pdf_template", 15),
   ("excel_to_csv", 5), ("csv_to_excel", 8), ("excel_deduplicator", 12), ("excel_cleaner", 15),
   ("csv_validator", 8), ("csv_to_sql", 10), ("csv_json_converter", 6), ("excel_merger", 15),
   ("pivot_table", 20), ("chart_generator", 18),
   ("image_resizer", 8), ("image_compressor", 10), ("background_remover", 25), ("meme_generator", 5),
   ("watermark_tool", 12), ("thumbnail_generator", 8), ("format_converter", 6), ("collage_maker", 15),
   ("color_extractor", 8), ("ai_enhancer", 30), ("caption_generator", 20), ("image_ocr", 15),
   ("gif_maker", 20), ("video_to_gif", 25), ("meme_template", 3),
   ("url_summarizer", 30), ("keyword_scraper", 20), ("meta_extractor", 8), ("link_checker", 25),
   ("sitemap_generator", 15), ("speed_analyzer", 30), ("link_visualizer", 20), ("share_preview", 10),
   ("html_to_pdf", 12), ("screenshot_generator", 20), ("robots_validator", 8), ("redirect_checker", 15),
   ("competitor_analyzer", 35), ("text_extractor", 10), ("web_archive", 18),
   ("keyword_suggestion", 15), ("backlink_analyzer", 45), ("keyword_gap", 30), ("seo_audit", 60),
   ("meta_generator", 20), ("hashtag_generator", 10), ("post_scheduler", 5), ("email_extractor", 15),
   ("email_validator", 25), ("meta_analyzer", 12),
   ("content_summarizer", 30), ("content_rewriter", 25), ("faq_generator", 35), ("product_description", 20),
   ("subject_generator", 8), ("post_optimizer", 15), ("sentiment_analyzer", 20), ("competitor_report", 45),
   ("table_extractor_ai", 30), ("text_translator", 25),
   ("html_pdf_converter", 10), ("markdown_converter", 8), ("css_js_minifier", 5), ("json_converter", 6),
   ("api_tester", 20), ("url_cleaner", 3), ("content_downloader", 25), ("response_checker", 15),
   ("structured_data", 8), ("multi_screenshot", 30),
   ("document_renamer", 5), ("format_converter", 8), ("signature_generator", 3), ("certificate_generator", 12),
   ("badge_generator", 8), ("calendar_generator", 5), ("qr_generator", 2), ("password_generator", 1),
   ("ascii_art", 8), ("template_generator", 15), ("resume_builder", 10), ("email_template", 8),
   ("text_replacer", 10), ("metadata_editor", 8), ("version_tracker", 5)]

/-- Lookup with Python dict-literal semantics: the LAST binding of a
duplicated key wins. -/
def pyLookup (l : List (String × Nat)) (k : String) : Option Nat :=
  l.foldl (fun acc p => if p.1 = k then some p.2 else acc) none

/-- Embedding of `get_processing_time(tool_id)` (`app.py` line 81):
`processing_times.get(tool_id, 10)`. -/
def get_processing_time (tool_id : String) : Nat :=
  (pyLookup processing_times tool_id).getD 10

/-- The shapes a Flask response can take in this app.  `fileAttachment` is
the `send_file(..., as_attachment=True)` form — present in the response space
(the file imports `send_file`) but, as the theorems show, never produced by
`download_result`. -/
inductive ApiResponse where
  /-- A response `jsonify(\x7b'error': msg\x7d), code`. -/
  | jsonError (error : String) (code : Nat)
  /-- A response `jsonify(processing_status[job_id])` — the full record, HTTP 200. -/
  | jsonRecord (rec : JobRecord)
  /-- A response with message and output-file list, HTTP 200. -/
  | jsonFiles (message : String) (output_files : List String)
  /-- a binary artifact stream with attachment disposition. -/
  | fileAttachment (path : String) (filename : String)
  deriving DecidableEq, Repr

/-- Holds (`true`) exactly on the binary-stream-with-attachment-disposition form. -/
def ApiResponse.isAttachment : ApiResponse → Bool
  | .fileAttachment _ _ => true
  | _ => false

/-- What `process_tool` (`app.py` lines 263-293) sends back to the submitter:
either a 400 JSON error, or the 200 JSON body
`{job_id, status: 'processing', estimated_time}`. -/
inductive SubmitResponse where
  | badRequest (error : String)
  | ok (job_id : String) (status : String) (estimated_time : Nat)
  deriving DecidableEq, Repr

/-- The record created at `app.py` line 277. -/
def initRecord (tool_id now : String) : JobRecord :=
  { status := "processing", progress := 0, tool_id := tool_id,
    start_time := now, estimated_time := get_processing_time tool_id }

/-- Embedding of `process_tool(tool_id)` (`app.py` lines 263-293).  `files` is
`request.files.getlist('files')` as the list of filenames, `none` when the
`'files'` key is absent; `jobId` is the fresh `uuid.uuid4()` string and `now`
the `datetime.now().isoformat()` timestamp.  Returns the HTTP response and
the updated `processing_status` (the background thread it spawns is
`process_files`, modelled separately). -/
def process_tool (st : Store) (tool_id : String) (files : Option (List String))
    (jobId now : String) : SubmitResponse × Store :=
  match files with
  | none => (.badRequest "No files uploaded", st)
  | some fs =>
      if fs.isEmpty || fs.all (fun f => f = "") then
        (.badRequest "No files selected", st)
      else
        (.ok jobId "processing" (get_processing_time tool_id),
         storeSet st jobId (initRecord tool_id now))

/-- The loop step count `steps = 10` (`app.py` line 300). -/
def steps : Nat := 10

/-- The successive values of `int((i + 1) / steps * 100)` written by the loop
at `app.py` lines 302-308, including the early `break` once progress reaches
100 (for `steps = 10` the division is exact, so `Nat` division coincides with
the float computation). -/
def loopWritesAux : Nat → Nat → Nat → List Nat
  | 0, _, _ => []
  | fuel + 1, s, i =>
      let p := ((i + 1) * 100) / s
      if 100 ≤ p then [p] else p :: loopWritesAux fuel s (i + 1)

/-- The progress values the worker writes: `loopWritesAux` started at `i = 0`
with `steps` iterations available. -/
def loopWrites (s : Nat) : List Nat := loopWritesAux s s 0

/-- One loop-body write `processing_status[job_id]['progress'] = progress`
(`app.py` line 305). -/
def applyProgress (st : Store) (jobId : String) (p : Nat) : Store :=
  storeUpdate st jobId (fun r => { r with progress := p })

/-- The success-branch `update` at `app.py` lines 313-318. -/
def completeUpdate (files : List String) (endTime : String) (r : JobRecord) : JobRecord :=
  { r with status := "completed", progress := 100,
           output_files := some files, end_time := some endTime }

/-- The except-branch `update` at `app.py` lines 320-325: note it does NOT
touch `progress`. -/
def failUpdate (msg endTime : String) (r : JobRecord) : JobRecord :=
  { r with status := "error", error := some msg, end_time := some endTime }

/-- Embedding of `process_files(job_id, tool_id, files)` (`app.py` lines 295-325), the
background worker.  The progress loop runs first (its body cannot raise: the
record is never deleted, so the dict writes succeed); then the handler
outcome decides the terminal update.  `outcome = .ok files` is
`simulate_tool_processing` returning normally, `.error msg` an exception `e`
with `str(e) = msg` caught by the `except` clause.  Total: no exception
escapes the worker to the submitter or the process. -/
def process_files (st : Store) (jobId _tool_id : String)
    (outcome : Except String (List String)) (endTime : String) : Store :=
  let st1 := (loopWrites steps).foldl (fun s p => applyProgress s jobId p) st
  match outcome with
  | .ok files => storeUpdate st1 jobId (completeUpdate files endTime)
  | .error msg => storeUpdate st1 jobId (failUpdate msg endTime)

/-- Embedding of `get_status(job_id)` (`app.py` lines 353-359). -/
def get_status (st : Store) (jobId : String) : ApiResponse :=
  match storeGet st jobId with
  | none => .jsonError "Job not found" 404
  | some r => .jsonRecord r

/-- Embedding of `download_result(job_id)` (`app.py` lines 361-376): 404 for an unknown
id, 400 for a job not yet `completed`, otherwise the placeholder JSON body
`{'message': 'Files ready for download', 'output_files': job.get('output_files', [])}`. -/
def download_result (st : Store) (jobId : String) : ApiResponse :=
  match storeGet st jobId with
  | none => .jsonError "Job not found" 404
  | some job =>
      if job.status ≠ "completed" then .jsonError "Job not completed" 400
      else .jsonFiles "Files ready for download" (job.output_files.getD [])

/-- The complete sequence of values ever assigned to a job's `progress`
field, in program order: `0` at creation (`app.py` line 279), the loop
writes (line 305), and the `100` of the completion update (line 314) — the
failure update writes no progress. -/
def progressTrace (outcome : Except String (List String)) : List Nat :=
  0 :: loopWrites steps ++ (match outcome with | .ok _ => [100] | .error _ => [])

/-- The duration of `time.sleep(estimated_time / steps)` (`app.py` line 303): the per-tick
delay, in seconds. -/
def sleepDelay (est : ℚ) : ℚ := est / (steps : ℚ)

/-- Total time slept by the worker loop: one `sleepDelay` per executed
iteration (the sleep precedes the write and the `break` check, so every
iteration that writes also sleeps). -/
def totalSleepTime (est : ℚ) : ℚ := ((loopWrites steps).length : ℚ) * sleepDelay est

/-- The step count the spec prescribes for the synthetic progress simulation:
`clamp(estimated_time, 10, 50)`.  Modelled from the spec's words, for
comparison with the code's `steps`. -/
def specSteps (est : Nat) : Nat := min (max est 10) 50

/-- The per-tick delay the spec prescribes: `max(0.1, estimated_time/steps)`
capped at 1 second (`estimated_time` is an integer number of seconds in this
app).  Modelled from the spec's words, for comparison with the code's
`sleepDelay`. -/
def specDelay (est : Nat) : ℚ := min (max (1/10) ((est : ℚ) / (specSteps est : ℚ))) 1

/-! ### Store lemmas -/

/-- Reading back the key just assigned returns the assigned record. -/
theorem storeGet_storeSet_self (st : Store) (id : String) (r : JobRecord) :
    storeGet (storeSet st id r) id = some r := by
  induction st with
  | nil => simp [storeGet, storeSet]
  | cons p t ih =>
      obtain ⟨k, v⟩ := p
      by_cases h : k = id
      · simp [storeSet, h, storeGet]
      · simpa [storeSet, h, storeGet] using ih

/-- Reading the key just mutated sees the mutation applied to the old value. -/
theorem storeGet_storeUpdate_self (st : Store) (id : String) (f : JobRecord → JobRecord) :
    storeGet (storeUpdate st id f) id = (storeGet st id).map f := by
  induction st with
  | nil => simp [storeGet, storeUpdate]
  | cons p t ih =>
      obtain ⟨k, v⟩ := p
      by_cases h : k = id
      · simp [storeUpdate, h, storeGet]
      · simpa [storeUpdate, h, storeGet] using ih

/-- Folding the progress writes over the store mutates only the target
record, by the same fold at record level. -/
theorem storeGet_foldl_applyProgress (ps : List Nat) (st : Store) (jobId : String) :
    storeGet (ps.foldl (fun s p => applyProgress s jobId p) st) jobId
      = (storeGet st jobId).map
          (fun r => ps.foldl (fun r p => { r with progress := p }) r) := by
  induction ps generalizing st with
  | nil => cases h : storeGet st jobId <;> simp [h]
  | cons p t ih =>
      rw [List.foldl_cons, ih, applyProgress, storeGet_storeUpdate_self]
      cases h : storeGet st jobId <;> simp [h]

/-- Evaluation of the loop-write sequence for the code's `steps = 10`. -/
theorem loopWrites_steps :
    loopWrites steps = [10, 20, 30, 40, 50, 60, 70, 80, 90, 100] := by rfl

/-- Master description of the worker: after `process_files`, the target job's
record is the old record with `progress` driven to 100 by the loop and the
terminal update applied on top. -/
theorem storeGet_process_files (st : Store) (jobId tool : String)
    (outcome : Except String (List String)) (t : String) :
    storeGet (process_files st jobId tool outcome t) jobId
      = (storeGet st jobId).map
          (fun r => match outcome with
            | .ok files => completeUpdate files t { r with progress := 100 }
            | .error msg => failUpdate msg t { r with progress := 100 }) := by
  cases outcome with
  | ok files =>
      rw [process_files, storeGet_storeUpdate_self, storeGet_foldl_applyProgress,
        loopWrites_steps]
      cases storeGet st jobId <;> rfl
  | error msg =>
      rw [process_files, storeGet_storeUpdate_self, storeGet_foldl_applyProgress,
        loopWrites_steps]
      cases storeGet st jobId <;> rfl

/-! ### Claim C1 — handler exception isolation -/

/-- C1 counterexample: the claim says a job whose handler raises reaches
status `failed` with a non-empty `error`.  On the concrete input — a job
`"j1"` whose handler raises an exception with empty message (`str(e) = ""`,
e.g. `raise ValueError()`) — the record's status is the literal `"error"`,
not `"failed"`, and the stored `error` is the empty string. -/
theorem failed_status_literal_cex :
    (storeGet (process_files [("j1", initRecord "pdf_merger" "t0")] "j1"
        "pdf_merger" (.error "") "t1") "j1").map (fun r => (r.status, r.error))
      = some ("error", some "") ∧ "error" ≠ "failed" := by
  constructor
  · rfl
  · decide

/-- C1 (amended): a job whose background execution raises an exception with
message `msg` reaches the terminal status literal `"error"` with `error`
equal to `msg` (which is empty exactly when the exception's message is
empty).  The capture is unconditional: `process_files` is a total function
into `Store`, so the exception is never propagated to the submitter (whose
call already returned) and never escapes the worker. -/
theorem handler_exception_reaches_error_state (st : Store)
    (jobId tool msg t : String) (r0 : JobRecord)
    (h : storeGet st jobId = some r0) :
    (storeGet (process_files st jobId tool (.error msg) t) jobId).map
        (fun r => (r.status, r.error))
      = some ("error", some msg) := by
  rw [storeGet_process_files, h]
  rfl

/-- C1 witness: the amended theorem applied to the concrete job `"j1"`
failing with message `"boom"`. -/
theorem handler_exception_reaches_error_state_witness :
    (storeGet (process_files [("j1", initRecord "pdf_merger" "t0")] "j1"
        "pdf_merger" (.error "boom") "t1") "j1").map (fun r => (r.status, r.error))
      = some ("error", some "boom") :=
  handler_exception_reaches_error_state _ "j1" "pdf_merger" "boom" "t1"
    (initRecord "pdf_merger" "t0") rfl

/-! ### Claim C2 — unknown tool at submission -/

/-- C2 counterexample: the claim says a submission naming an unregistered
tool fails immediately with `UnknownToolError`, creating no job and
returning no job id.  On the concrete input `tool_id = "not_a_real_tool"`
(not in the table) with one uploaded file, `process_tool` returns the 200
body with a job id and creates the job record: there is no registration
check anywhere in the submission path. -/
theorem unknown_tool_accepted_cex :
    (process_tool [] "not_a_real_tool" (some ["a.pdf"]) "j1" "t0").1
        = .ok "j1" "processing" 10 ∧
    storeGet (process_tool [] "not_a_real_tool" (some ["a.pdf"]) "j1" "t0").2 "j1"
        ≠ none := by decide

/-- C2 (amended): submission performs no handler-registry check — EVERY tool
name, registered or not, is accepted whenever files are present: the
response is `200 {job_id, status: 'processing', estimated_time}` and a job
record is created, with `estimated_time = get_processing_time tool` (the
table value, or the default 10 for an unknown tool). -/
theorem unknown_tool_submission_accepted (st : Store)
    (tool jobId now : String) (fs : List String)
    (hfs : (fs.isEmpty || fs.all (fun f => f = "")) = false) :
    (process_tool st tool (some fs) jobId now).1
        = .ok jobId "processing" (get_processing_time tool) ∧
    storeGet (process_tool st tool (some fs) jobId now).2 jobId
        = some (initRecord tool now) := by
  simp [process_tool, hfs, storeGet_storeSet_self]

/-- C2 witness: the amended theorem at the unregistered tool
`"not_a_real_tool"` with one uploaded file. -/
theorem unknown_tool_submission_accepted_witness :
    (process_tool [] "not_a_real_tool" (some ["a.pdf"]) "j1" "t0").1
        = .ok "j1" "processing" (get_processing_time "not_a_real_tool") ∧
    storeGet (process_tool [] "not_a_real_tool" (some ["a.pdf"]) "j1" "t0").2 "j1"
        = some (initRecord "not_a_real_tool" "t0") :=
  unknown_tool_submission_accepted [] "not_a_real_tool" "j1" "t0" ["a.pdf"] rfl

/-! ### Claim C10 — default processing time -/

/-- C10: for every tool id absent from the static `processing_times` table,
`get_processing_time` returns the default 10, so a submission naming an
unregistered tool is accepted and reports `estimated_time = 10` both in the
submit response and in the created job record. -/
theorem default_processing_time_ten (st : Store)
    (tool jobId now : String) (fs : List String)
    (h : pyLookup processing_times tool = none)
    (hfs : (fs.isEmpty || fs.all (fun f => f = "")) = false) :
    get_processing_time tool = 10 ∧
    (process_tool st tool (some fs) jobId now).1 = .ok jobId "processing" 10 ∧
    (storeGet (process_tool st tool (some fs) jobId now).2 jobId).map
        (fun r => r.estimated_time) = some 10 := by
  have h10 : get_processing_time tool = 10 := by
    simp [get_processing_time, h]
  refine ⟨h10, ?_, ?_⟩ <;>
    simp [process_tool, hfs, storeGet_storeSet_self, initRecord, h10]

/-- C10 witness: the theorem at the absent id `"not_a_real_tool"`. -/
theorem default_processing_time_ten_witness :
    get_processing_time "not_a_real_tool" = 10 ∧
    (process_tool [] "not_a_real_tool" (some ["a.pdf"]) "j1" "t0").1
        = .ok "j1" "processing" 10 ∧
    (storeGet (process_tool [] "not_a_real_tool" (some ["a.pdf"]) "j1" "t0").2 "j1").map
        (fun r => r.estimated_time) = some 10 :=
  default_processing_time_ten [] "not_a_real_tool" "j1" "t0" ["a.pdf"]
    (by decide) rfl

/-! ### Claim C3 — exactly one terminal field -/

/-- C3: for every accepted submission, immediately after creation the job is
`"processing"` with neither `output_files` (the result) nor `error`
populated; and after the worker finishes, exactly one of the two is
populated — `output_files` set and `error` unset when the job completed,
`error` set and `output_files` unset when it failed. -/
theorem terminal_fields_exclusive (st : Store) (tool jobId now t : String)
    (fs : List String) (outcome : Except String (List String))
    (hfs : (fs.isEmpty || fs.all (fun f => f = "")) = false) :
    (storeGet (process_tool st tool (some fs) jobId now).2 jobId).map
        (fun r => (r.status, r.output_files, r.error))
      = some ("processing", none, none) ∧
    ∀ r, storeGet (process_files (process_tool st tool (some fs) jobId now).2
          jobId tool outcome t) jobId = some r →
      (r.status = "completed" ∧ r.output_files.isSome = true ∧ r.error = none) ∨
      (r.status = "error" ∧ r.error.isSome = true ∧ r.output_files = none) := by
  have hget : storeGet (process_tool st tool (some fs) jobId now).2 jobId
      = some (initRecord tool now) := by
    simp [process_tool, hfs, storeGet_storeSet_self]
  refine ⟨by rw [hget]; rfl, fun r hr => ?_⟩
  rw [storeGet_process_files, hget] at hr
  cases outcome with
  | ok files =>
      left
      cases hr
      exact ⟨rfl, rfl, rfl⟩
  | error msg =>
      right
      cases hr
      exact ⟨rfl, rfl, rfl⟩

/-- C3 witness: both branches of the theorem exercised on a concrete job
`"j1"` for the tool `"pdf_merger"`, once completing with one output file and
once failing with message `"boom"`. -/
theorem terminal_fields_exclusive_witness :
    ((storeGet (process_tool [] "pdf_merger" (some ["a.pdf"]) "j1" "t0").2 "j1").map
        (fun r => (r.status, r.output_files, r.error))
      = some ("processing", none, none)) ∧
    (∀ r, storeGet (process_files (process_tool [] "pdf_merger" (some ["a.pdf"]) "j1" "t0").2
          "j1" "pdf_merger" (.ok ["a_processed.pdf"]) "t1") "j1" = some r →
      (r.status = "completed" ∧ r.output_files.isSome = true ∧ r.error = none) ∨
      (r.status = "error" ∧ r.error.isSome = true ∧ r.output_files = none)) ∧
    (∀ r, storeGet (process_files (process_tool [] "pdf_merger" (some ["a.pdf"]) "j1" "t0").2
          "j1" "pdf_merger" (.error "boom") "t1") "j1" = some r →
      (r.status = "completed" ∧ r.output_files.isSome = true ∧ r.error = none) ∨
      (r.status = "error" ∧ r.error.isSome = true ∧ r.output_files = none)) :=
  ⟨(terminal_fields_exclusive [] "pdf_merger" "j1" "t0" "t1" ["a.pdf"]
      (.ok ["a_processed.pdf"]) rfl).1,
   (terminal_fields_exclusive [] "pdf_merger" "j1" "t0" "t1" ["a.pdf"]
      (.ok ["a_processed.pdf"]) rfl).2,
   (terminal_fields_exclusive [] "pdf_merger" "j1" "t0" "t1" ["a.pdf"]
      (.error "boom") rfl).2⟩

/-! ### Claim C4 — progress is 100 in every terminal state -/

/-- C4: after the worker finishes — whichever terminal state it reached —
the job's `progress` is 100.  For completion the terminal update forces
`progress := 100` explicitly; for failure the update writes no progress, but
the progress loop has already driven the field to 100 before the handler
(the only fallible step) runs, so the observable property holds in both
terminal states. -/
theorem terminal_progress_100 (st : Store) (jobId tool t : String)
    (outcome : Except String (List String)) (r0 : JobRecord)
    (h : storeGet st jobId = some r0) :
    (storeGet (process_files st jobId tool outcome t) jobId).map
        (fun r => r.progress) = some 100 ∧
    ((storeGet (process_files st jobId tool outcome t) jobId).map
        (fun r => r.status) = some "completed" ∨
     (storeGet (process_files st jobId tool outcome t) jobId).map
        (fun r => r.status) = some "error") := by
  rw [storeGet_process_files, h]
  cases outcome with
  | ok files => exact ⟨rfl, Or.inl rfl⟩
  | error msg => exact ⟨rfl, Or.inr rfl⟩

/-- C4 witness: the theorem at a concrete failing job (the branch whose
terminal update does not itself write progress). -/
theorem terminal_progress_100_witness :
    (storeGet (process_files [("j1", initRecord "pdf_merger" "t0")] "j1"
        "pdf_merger" (.error "boom") "t1") "j1").map (fun r => r.progress)
      = some 100 :=
  (terminal_progress_100 [("j1", initRecord "pdf_merger" "t0")] "j1"
    "pdf_merger" "t1" (.error "boom") (initRecord "pdf_merger" "t0") rfl).1

/-! ### Claim C5 — monotone progress -/

/-- C5: the complete sequence of values ever written to a job's `progress`
field — 0 at creation, then the loop writes `10, 20, ..., 100`, then the 100
of the completion update (the failure update writes none) — is
non-decreasing, for either worker outcome.  The job has a single writer (its
worker thread), so a poller reading between writes observes a non-decreasing
sequence over the job's lifetime. -/
theorem progress_trace_monotone (outcome : Except String (List String)) :
    List.Chain' (· ≤ ·) (progressTrace outcome) := by
  cases outcome with
  | ok files =>
      have h : progressTrace (.ok files)
          = [0, 10, 20, 30, 40, 50, 60, 70, 80, 90, 100, 100] := rfl
      rw [h]; norm_num [List.chain'_cons]
  | error msg =>
      have h : progressTrace (.error msg)
          = [0, 10, 20, 30, 40, 50, 60, 70, 80, 90, 100] := rfl
      rw [h]; norm_num [List.chain'_cons]

/-! ### Claim C6 — queries fail closed -/

/-- C6 counterexample: the claim says the download query fails with a
404-equivalent when the job exists but is not yet `completed`.  On the
concrete store holding the freshly created job `"j1"` (status
`"processing"`), `download_result` fails with HTTP 400 (`'Job not
completed'`), not a 404-equivalent `NotFoundError`. -/
theorem download_processing_400_cex :
    download_result [("j1", initRecord "pdf_merger" "t0")] "j1"
        = .jsonError "Job not completed" 400 ∧
    download_result [("j1", initRecord "pdf_merger" "t0")] "j1"
        ≠ .jsonError "Job not found" 404 ∧
    (400 : Nat) ≠ 404 := by decide

/-- C6 (amended): status and download queries fail closed — for a job id not
in the store both fail with the 404 error `'Job not found'` and never return
a default or empty success; for a job that exists but is not yet
`completed`, the download query also fails, but with the 400 error
`'Job not completed'` rather than a 404-equivalent. -/
theorem queries_fail_closed (st : Store) (jobId : String) :
    (storeGet st jobId = none →
      get_status st jobId = .jsonError "Job not found" 404 ∧
      download_result st jobId = .jsonError "Job not found" 404) ∧
    (∀ r, storeGet st jobId = some r → r.status ≠ "completed" →
      download_result st jobId = .jsonError "Job not completed" 400) := by
  constructor
  · intro h
    constructor <;> simp [get_status, download_result, h]
  · intro r h hs
    simp [download_result, h, hs]

/-- C6 witness: the theorem applied to the empty store with a fabricated id,
and to a store holding one still-processing job. -/
theorem queries_fail_closed_witness :
    get_status [] "no-such-job" = .jsonError "Job not found" 404 ∧
    download_result [] "no-such-job" = .jsonError "Job not found" 404 ∧
    download_result [("j1", initRecord "pdf_merger" "t0")] "j1"
        = .jsonError "Job not completed" 400 :=
  ⟨((queries_fail_closed [] "no-such-job").1 rfl).1,
   ((queries_fail_closed [] "no-such-job").1 rfl).2,
   (queries_fail_closed [("j1", initRecord "pdf_merger" "t0")] "j1").2
     (initRecord "pdf_merger" "t0") rfl (by decide)⟩

/-! ### Claim C7 — idempotent completion -/

/-- C7 counterexample: the claim says applying the complete transition a
second time to an already-terminal job leaves the observable state unchanged
(first terminal write wins).  On the concrete store where `"j1"` was
completed with `end_time = "t1"`, a second complete at `end_time = "t2"`
changes the store: there is no transition guard, so the update overwrites
`end_time`, which `get_status` exposes. -/
theorem complete_twice_changes_state_cex :
    storeUpdate
        (storeUpdate [("j1", initRecord "pdf_merger" "t0")] "j1"
          (completeUpdate ["a_processed.pdf"] "t1"))
        "j1" (completeUpdate ["a_processed.pdf"] "t2")
      ≠ storeUpdate [("j1", initRecord "pdf_merger" "t0")] "j1"
          (completeUpdate ["a_processed.pdf"] "t1") := by decide

/-- C7 (amended): the complete transition has no guard, so the LAST terminal
write wins: re-applying it overwrites the previous write's fields, and it is
a no-op only when re-applied with the same output files and the same
end-time — the observable state is unchanged by a second call exactly when
the second call carries identical arguments. -/
theorem complete_last_write_wins (r : JobRecord)
    (files files' : List String) (t t' : String) :
    completeUpdate files' t' (completeUpdate files t r) = completeUpdate files' t' r ∧
    completeUpdate files t (completeUpdate files t r) = completeUpdate files t r :=
  ⟨rfl, rfl⟩

/-! ### Claim C8 — download returns the artifact -/

/-- C8 counterexample: the claim says downloading a completed job returns
the output artifact as a binary byte stream with attachment disposition.
On the concrete store where `"j1"` completed with one output file,
`download_result` returns the placeholder JSON body
`'Files ready for download'` with the output-file name list — not an
attachment stream. -/
theorem download_returns_json_cex :
    download_result (process_files [("j1", initRecord "pdf_merger" "t0")] "j1"
        "pdf_merger" (.ok ["a_processed.pdf"]) "t1") "j1"
      = .jsonFiles "Files ready for download" ["a_processed.pdf"] ∧
    (download_result (process_files [("j1", initRecord "pdf_merger" "t0")] "j1"
        "pdf_merger" (.ok ["a_processed.pdf"]) "t1") "j1").isAttachment = false := by
  decide

/-- C8 (amended): for every job whose status is `completed`, the download
operation returns HTTP 200 with the placeholder JSON body — message
`'Files ready for download'` plus the list of output file names
(`job.get('output_files', [])`) — never a binary attachment stream. -/
theorem download_completed_returns_placeholder_json (st : Store)
    (jobId : String) (r : JobRecord)
    (h : storeGet st jobId = some r) (hc : r.status = "completed") :
    download_result st jobId
        = .jsonFiles "Files ready for download" (r.output_files.getD []) ∧
    (download_result st jobId).isAttachment = false := by
  constructor <;> simp [download_result, h, hc, ApiResponse.isAttachment]

/-- C8 witness: the amended theorem at a concrete completed job. -/
theorem download_completed_returns_placeholder_json_witness :
    download_result [("j1", completeUpdate ["a_processed.pdf"] "t1"
        (initRecord "pdf_merger" "t0"))] "j1"
      = .jsonFiles "Files ready for download"
          ((completeUpdate ["a_processed.pdf"] "t1"
            (initRecord "pdf_merger" "t0")).output_files.getD []) ∧
    (download_result [("j1", completeUpdate ["a_processed.pdf"] "t1"
        (initRecord "pdf_merger" "t0"))] "j1").isAttachment = false :=
  download_completed_returns_placeholder_json _ "j1" _ rfl rfl

/-! ### Claim C9 — the progress cadence -/

/-- C9 counterexample: the claim says the number of progress steps is
`clamp(estimated_time, 10, 50)` and the per-tick delay is
`max(0.1, estimated_time/steps)` capped at 1 second.  At
`estimated_time = 60` (the `seo_audit` tool): the code's step count is the
constant 10, not the claimed 50, and the code's delay is 6 seconds, not the
claimed (capped) 1 second. -/
theorem progress_cadence_cex :
    get_processing_time "seo_audit" = 60 ∧
    steps = 10 ∧ specSteps 60 = 50 ∧ (10 : Nat) ≠ 50 ∧
    (loopWrites steps).length = 10 ∧
    sleepDelay 60 = 6 ∧ specDelay 60 = 1 ∧ (6 : ℚ) ≠ 1 := by
  refine ⟨by decide, rfl, by decide, by decide, rfl, ?_, ?_, by norm_num⟩
  · norm_num [sleepDelay, steps]
  · norm_num [specDelay, specSteps]

/-- C9 (amended): the worker's synthetic progress cadence uses a CONSTANT
step count of 10 regardless of `estimated_time`; the per-tick delay is
exactly `estimated_time / 10` with no 0.1-second floor and no 1-second cap;
the loop performs one sleep per write, so the total simulated duration
equals `estimated_time` exactly. -/
theorem progress_cadence_fixed_steps (est : ℚ) :
    steps = 10 ∧ (loopWrites steps).length = steps ∧
    sleepDelay est = est / 10 ∧ totalSleepTime est = est := by
  refine ⟨rfl, rfl, rfl, ?_⟩
  have h : totalSleepTime est = (10 : ℚ) * (est / 10) := rfl
  rw [h]
  ring

end AllTools
